import Mathlib

set_option maxRecDepth 100000

/-!
# Verification of the RecipeWreck text-extraction core

This file gives a shallow embedding, in Lean 4, of the two text-extraction
components of the RecipeWreck web application, together with the request-shape
validation and persistence glue that surrounds them:

* the recipe text parser `parseRecipe` from `src/app/api/generate/route.ts`;
* the chat/role response splitter of the onboarding-chat route handler
  (`src/app/api/onboarding/chat/route.ts`), embedded as `splitLlmResponse`,
  with its input sanitizer `sanitizeInput`, request validation
  (`onboardingValidate`), stricter schema check (`aiRoleZodValid`) and
  persistence step (`persistCandidate` / `onboardingRespond`);
* the zod request-shape validation of the recipe-generation route handler
  (`generateValidate`).

JavaScript built-ins used by that code (String.prototype.trim / toLowerCase /
startsWith / indexOf / substring / split, the two anchored regex replaces,
`JSON.parse`, JS truthiness and `String(x)` coercion) are modelled explicitly
as Lean functions on `List Char`-backed strings, named `js...` below.  The
impure reads of the route handler (`Date.now() + Math.random()` used for the
temporary candidate id, and `new Date().toISOString()` used for its
`createdAt`) are modelled by explicit environment parameters (`SplitEnv`), the
standard shallow embedding of impure code as state passing.  The document-store
insert (`AiRole.create`) is an external collaborator and is modelled by an
explicit `Except`-valued outcome parameter.
-/

/-! ## JavaScript string primitives -/

/-- Whitespace characters recognised by the JS `trim` and the regex `\s`
class, restricted to the ASCII range that can appear in the claims. -/
def jsWs (c : Char) : Bool :=
  c = ' ' || c = '\t' || c = '\n' || c = '\r' || c = '\x0b' || c = '\x0c'

/-- Model of `String.prototype.trim`. -/
def jsTrim (s : String) : String :=
  ⟨((s.data.dropWhile jsWs).reverse.dropWhile jsWs).reverse⟩

/-- Model of `String.prototype.toLowerCase` (ASCII range). -/
def jsToLower (s : String) : String :=
  ⟨s.data.map Char.toLower⟩

/-- Model of `String.prototype.startsWith`. -/
def jsStartsWith (s p : String) : Bool :=
  p.data.isPrefixOf s.data

/-- Model of `String.prototype.slice(n)` for a nonnegative index, also used
for `substring(n)`. -/
def jsDrop (s : String) (n : Nat) : String :=
  ⟨s.data.drop n⟩

/-- Model of `String.prototype.substring(0, n)` (also `substring(a, b)` via
`strSubstring`): clamping is inherited from `List.take`. -/
def jsTake (s : String) (n : Nat) : String :=
  ⟨s.data.take n⟩

/-- Model of `String.prototype.substring(a, b)` for `a ≤ b`. -/
def strSubstring (s : String) (a b : Nat) : String :=
  ⟨(s.data.take b).drop a⟩

/-- Model of `String.prototype.indexOf(pat, start)`: the least index `i ≥ start`
at which `pat` occurs in `s`, or `none` (JS `-1`). -/
def strIndexOf (s pat : String) (start : Nat) : Option Nat :=
  (List.range (s.data.length + 1)).find?
    (fun i => decide (start ≤ i) && pat.data.isPrefixOf (s.data.drop i))

/-- Model of `String.prototype.split("\n")`: split on the newline character.
`""` splits to `[""]`, and separators at the ends produce empty fields,
exactly as in JS. -/
def splitNlAux : List Char → List Char → List String
  | acc, [] => [⟨acc.reverse⟩]
  | acc, c :: rest =>
    if c = '\n' then ⟨acc.reverse⟩ :: splitNlAux [] rest
    else splitNlAux (c :: acc) rest

/-- The call `raw.split("\n")` of the recipe parser. -/
def splitNl (s : String) : List String :=
  splitNlAux [] s.data

/-! ## The recipe text parser (`parseRecipe`, src/app/api/generate/route.ts) -/

/-- The parser output record `{ title, ingredients, steps }`. -/
structure Recipe where
  title : String
  ingredients : List String
  steps : List String
deriving DecidableEq, Repr

/-- The parser mode variable `"none" | "ingredients" | "steps"`. -/
inductive PMode where
  | modeNone
  | modeIngredients
  | modeSteps
deriving DecidableEq, Repr

/-- The loop state of `parseRecipe`: the mutable `title`, `ingredients`,
`steps` and `mode` variables. -/
structure PState where
  title : String
  ingredients : List String
  steps : List String
  mode : PMode
deriving DecidableEq, Repr

/-- Model of `line.replace(/^[-*]\s*/, "")`: strip one leading `-` or `*` bullet and
the whitespace after it; a line with no such bullet is unchanged. -/
def stripBullet (l : String) : String :=
  match l.data with
  | c :: rest => if c = '-' ∨ c = '*' then ⟨rest.dropWhile jsWs⟩ else l
  | [] => l

/-- Model of `line.replace(/^\d+\.\s*/, "")`: strip a leading run of digits followed by
a literal dot and trailing whitespace; otherwise the line is unchanged. -/
def stripNumDot (l : String) : String :=
  let ds := l.data.takeWhile Char.isDigit
  match ds, l.data.drop ds.length with
  | _ :: _, '.' :: r => ⟨r.dropWhile jsWs⟩
  | _, _ => l

/-- One iteration of the `for (const line of lines)` loop of `parseRecipe`. -/
def recipeStep (st : PState) (line : String) : PState :=
  let lower := jsToLower line
  if jsStartsWith lower "title:" then
    { st with title := jsTrim (jsDrop line 6), mode := PMode.modeNone }
  else if jsStartsWith lower "ingredients" then
    { st with mode := PMode.modeIngredients }
  else if jsStartsWith lower "steps" then
    { st with mode := PMode.modeSteps }
  else
    match st.mode with
    | PMode.modeIngredients =>
      { st with ingredients := st.ingredients ++ [stripBullet line] }
    | PMode.modeSteps =>
      { st with steps := st.steps ++ [stripNumDot line] }
    | PMode.modeNone => st

/-- The recipe parser `parseRecipe` of `src/app/api/generate/route.ts`:
split on newlines, trim each line, drop blank lines, then run the
mode-switching scan.  A total function: it cannot throw. -/
def parseRecipe (raw : String) : Recipe :=
  let lines := ((splitNl raw).map jsTrim).filter (fun l => l != "")
  let fin := lines.foldl recipeStep
    { title := "Untitled Wreck", ingredients := [], steps := [], mode := PMode.modeNone }
  { title := fin.title, ingredients := fin.ingredients, steps := fin.steps }

/-! ## JSON values and a model of `JSON.parse`

`JVal` models the dynamic JavaScript values the onboarding route manipulates:
the result of `JSON.parse` (string, number, boolean, null, array, object) plus
`undefVal`, the JS `undefined` produced by accessing a missing property.  JSON
numbers are carried as their source lexeme, which is all the route ever
inspects (truthiness).  `jsonParse` is an executable recursive-descent model
of `JSON.parse` for this grammar; duplicate object keys are kept in order and
resolved last-wins by `jsGet`, as in JS. -/

inductive JVal where
  | str (s : String)
  | num (lex : String)
  | bool (b : Bool)
  | null
  | undefVal
  | arr (xs : List JVal)
  | obj (flds : List (String × JVal))

/-- Property lookup on a parsed JSON object: the value of the *last*
occurrence of the key, as `JSON.parse` keeps the last duplicate. -/
def jsGet (flds : List (String × JVal)) (k : String) : Option JVal :=
  match flds with
  | [] => none
  | (k2, v) :: rest =>
    match jsGet rest k with
    | some v2 => some v2
    | none => if k2 = k then some v else none

/-- Property access `v[k]` on an arbitrary JS value: objects look up the key,
every other (non-nullish) value yields `undefined`.  Never applied to
`null`/`undefined` by the embedded code, which checks for those first, as
JS would throw there. -/
def jsGetU (v : JVal) (k : String) : JVal :=
  match v with
  | .obj flds => (jsGet flds k).getD .undefVal
  | _ => .undefVal

/-- Model of `Array.isArray`. -/
def jsIsArray (v : JVal) : Bool :=
  match v with
  | .arr _ => true
  | _ => false

/-- Nullish values (`null` and `undefined`), on which property access throws. -/
def jsNullish (v : JVal) : Bool :=
  match v with
  | .null => true
  | .undefVal => true
  | _ => false

/-- A JSON number lexeme denoting zero: every mantissa digit is `0`
(`0`, `-0`, `0.000`, `0e17`, ...). -/
def numIsZero (lex : String) : Bool :=
  ((lex.data.takeWhile (fun c => c ≠ 'e' ∧ c ≠ 'E')).filter Char.isDigit).all (· = '0')

/-- JS truthiness of a value: `""`, `0`, `false`, `null` and `undefined` are
falsy; every other string/number and every array/object is truthy. -/
def jsTruthy (v : JVal) : Bool :=
  match v with
  | .str s => !s.data.isEmpty
  | .num lex => !numIsZero lex
  | .bool b => b
  | .null => false
  | .undefVal => false
  | .arr _ => true
  | .obj _ => true

mutual
/-- Model of the `String(x)` coercion: strings unchanged, numbers by their lexeme
(modelled), booleans/null by name, arrays joined with `","` with nullish
elements rendered empty, objects as `"[object Object]"`. -/
def jsToString : JVal → String
  | .str s => s
  | .num lex => lex
  | .bool b => if b then "true" else "false"
  | .null => "null"
  | .undefVal => "undefined"
  | .arr xs => jsArrToString xs
  | .obj _ => "[object Object]"
/-- Model of `Array.prototype.toString`: elements joined with `","`. -/
def jsArrToString : List JVal → String
  | [] => ""
  | x :: xs =>
    let hd :=
      match x with
      | .null => ""
      | .undefVal => ""
      | v => jsToString v
    match xs with
    | [] => hd
    | _ :: _ => hd ++ "," ++ jsArrToString xs
end

/-- JSON whitespace. -/
def jsonWs (c : Char) : Bool :=
  c = ' ' || c = '\t' || c = '\n' || c = '\r'

/-- Value of a hexadecimal digit, for `\uXXXX` escapes. -/
def hexDigitVal (c : Char) : Option Nat :=
  if '0' ≤ c ∧ c ≤ '9' then some (c.toNat - '0'.toNat)
  else if 'a' ≤ c ∧ c ≤ 'f' then some (c.toNat - 'a'.toNat + 10)
  else if 'A' ≤ c ∧ c ≤ 'F' then some (c.toNat - 'A'.toNat + 10)
  else none

/-- Body of a JSON string literal, after the opening quote: returns the
decoded string and the input after the closing quote. -/
def parseJStrAux (acc : List Char) : List Char → Option (String × List Char)
  | [] => none
  | c :: rest =>
    if c = '"' then some (⟨acc.reverse⟩, rest)
    else if c = '\\' then
      match rest with
      | [] => none
      | e :: rest2 =>
        if e = '"' then parseJStrAux ('"' :: acc) rest2
        else if e = '\\' then parseJStrAux ('\\' :: acc) rest2
        else if e = '/' then parseJStrAux ('/' :: acc) rest2
        else if e = 'b' then parseJStrAux ('\x08' :: acc) rest2
        else if e = 'f' then parseJStrAux ('\x0c' :: acc) rest2
        else if e = 'n' then parseJStrAux ('\n' :: acc) rest2
        else if e = 'r' then parseJStrAux ('\r' :: acc) rest2
        else if e = 't' then parseJStrAux ('\t' :: acc) rest2
        else if e = 'u' then
          match rest2 with
          | h1 :: h2 :: h3 :: h4 :: rest3 =>
            match hexDigitVal h1, hexDigitVal h2, hexDigitVal h3, hexDigitVal h4 with
            | some a, some b, some c2, some d =>
              parseJStrAux (Char.ofNat (a * 4096 + b * 256 + c2 * 16 + d) :: acc) rest3
            | _, _, _, _ => none
          | _ => none
        else none
    else if c.toNat < 32 then none
    else parseJStrAux (c :: acc) rest

/-- Split a leading run of decimal digits. -/
def digitsSplit (cs : List Char) : List Char × List Char :=
  (cs.takeWhile Char.isDigit, cs.dropWhile Char.isDigit)

/-- A JSON number lexeme: optional sign, digits, optional fraction, optional
exponent.  Returns the lexeme and the rest of the input. -/
def parseJNum (cs : List Char) : Option (String × List Char) :=
  let (sign, cs1) :=
    match cs with
    | '-' :: r => (['-'], r)
    | _ => (([] : List Char), cs)
  let (ip, cs2) := digitsSplit cs1
  if ip.isEmpty then none
  else
    let (fp, cs3) :=
      match cs2 with
      | '.' :: r =>
        let (ds, r2) := digitsSplit r
        if ds.isEmpty then (([] : List Char), cs2) else ('.' :: ds, r2)
      | _ => (([] : List Char), cs2)
    match cs3 with
    | e :: r =>
      if e = 'e' ∨ e = 'E' then
        let (sgn, r2) :=
          match r with
          | s :: r3 => if s = '+' ∨ s = '-' then ([s], r3) else (([] : List Char), r)
          | [] => (([] : List Char), r)
        let (ds, r4) := digitsSplit r2
        if ds.isEmpty then none
        else some (⟨sign ++ ip ++ fp ++ [e] ++ sgn ++ ds⟩, r4)
      else some (⟨sign ++ ip ++ fp⟩, cs3)
    | [] => some (⟨sign ++ ip ++ fp⟩, [])

/-- The five nonterminals of the recursive descent: a value, an object body
(after `\x7b`), the nonempty member list of an object, an array body (after
`[`) and the nonempty element list of an array. -/
inductive PJKind where
  | val
  | objBody
  | objItems
  | arrBody
  | arrItems

/-- Fuelled recursive descent over the JSON grammar.  Structural recursion on
the fuel, so that concrete inputs evaluate by `rfl`/`decide`. -/
def parseJ : Nat → PJKind → List Char → Option (JVal × List Char)
  | 0, _, _ => none
  | fuel + 1, PJKind.val, cs =>
    (match cs.dropWhile jsonWs with
     | [] => none
     | c :: rest =>
       if c = '"' then
         match parseJStrAux [] rest with
         | some (s, r) => some (.str s, r)
         | none => none
       else if c = '\x7b' then
         parseJ fuel PJKind.objBody rest
       else if c = '[' then
         parseJ fuel PJKind.arrBody rest
       else if c = 't' then
         if rest.take 3 = ['r', 'u', 'e'] then some (.bool true, rest.drop 3) else none
       else if c = 'f' then
         if rest.take 4 = ['a', 'l', 's', 'e'] then some (.bool false, rest.drop 4) else none
       else if c = 'n' then
         if rest.take 3 = ['u', 'l', 'l'] then some (.null, rest.drop 3) else none
       else
         match parseJNum (c :: rest) with
         | some (lex, r) => some (.num lex, r)
         | none => none)
  | fuel + 1, PJKind.objBody, cs =>
    (match cs.dropWhile jsonWs with
     | '\x7d' :: rest => some (.obj [], rest)
     | _ => parseJ fuel PJKind.objItems cs)
  | fuel + 1, PJKind.objItems, cs =>
    (match cs.dropWhile jsonWs with
     | '"' :: rest =>
       match parseJStrAux [] rest with
       | some (k, r1) =>
         match r1.dropWhile jsonWs with
         | ':' :: r2 =>
           match parseJ fuel PJKind.val r2 with
           | some (v, r3) =>
             match r3.dropWhile jsonWs with
             | ',' :: r4 =>
               (match parseJ fuel PJKind.objItems r4 with
                | some (.obj flds, r5) => some (.obj ((k, v) :: flds), r5)
                | _ => none)
             | '\x7d' :: r4 => some (.obj [(k, v)], r4)
             | _ => none
           | none => none
         | _ => none
       | none => none
     | _ => none)
  | fuel + 1, PJKind.arrBody, cs =>
    (match cs.dropWhile jsonWs with
     | ']' :: rest => some (.arr [], rest)
     | _ => parseJ fuel PJKind.arrItems cs)
  | fuel + 1, PJKind.arrItems, cs =>
    (match parseJ fuel PJKind.val cs with
     | some (v, r1) =>
       match r1.dropWhile jsonWs with
       | ',' :: r2 =>
         (match parseJ fuel PJKind.arrItems r2 with
          | some (.arr xs, r3) => some (.arr (v :: xs), r3)
          | _ => none)
       | ']' :: r2 => some (.arr [v], r2)
       | _ => none
     | none => none)

/-- Model of `JSON.parse`: parse one value, require only whitespace after it.
The fuel bounds the nesting depth and is ample for any input of this length. -/
def jsonParse (s : String) : Option JVal :=
  match parseJ (4 * s.data.length + 8) PJKind.val s.data with
  | some (v, rest) => if (rest.dropWhile jsonWs).isEmpty then some v else none
  | none => none

/-! ## The chat/role response splitter (src/app/api/onboarding/chat/route.ts)

`splitLlmResponse` embeds the block of the onboarding `POST` handler that
separates the LLM response into conversational text and an AI Role candidate
(marker search, `JSON.parse`, the required-field truthiness guard, candidate
construction and the fallback paths).  The clock/RNG reads of one invocation
are the `SplitEnv` parameter: `genId` models `String(Date.now() + Math.random())`
and `nowIso` models `new Date().toISOString()`; exactly one of the two call
sites that read the clock runs per invocation.  The parse-error message of the
JS engine (`parseError.message`, a deterministic function of the malformed
text) is modelled by the constant `jsJsonErrMsg`. -/

/-- The value `---JSON_START---` of `jsonStartMarker` in the route. -/
def jsonStartMarker : String := "---JSON_START---"

/-- The value `---JSON_END---` of `jsonEndMarker` in the route. -/
def jsonEndMarker : String := "---JSON_END---"

/-- The clock/RNG reads of one handler invocation. -/
structure SplitEnv where
  genId : String
  nowIso : String

/-- The `ClientAiRole` record returned to the client.  The four LLM-derived
fields hold the dynamic values stored by the JS code (well-typed only when the
LLM cooperates); `tags` is always a string array because the code maps
`String(tag).toLowerCase()` over it. -/
structure ClientAiRole where
  id : String
  title : JVal
  description : JVal
  systemPromptText : JVal
  category : JVal
  tags : List String
  version : Nat
  createdAt : String
  createdBy : String

/-- The helper `mockFallbackAiRole(errorMessage, userInput)`: the consistent mock/error
AiRole object.  `userInput` is truthiness-tested, so an empty string also
selects the generic title. -/
def mockFallbackAiRole (env : SplitEnv) (errorMessage : String)
    (userInput : Option String) : ClientAiRole :=
  let title :=
    match userInput with
    | some u =>
      if u != "" then "Error: AI Role for \"" ++ jsTake u 50 ++ "\""
      else "Error: AI Role Generation Failed"
    | none => "Error: AI Role Generation Failed"
  { id := env.genId
    title := .str title
    description := .str ("Failed to generate AI Role. " ++ errorMessage)
    systemPromptText := .str "Error: Could not generate system prompt."
    category := .str "Error"
    tags := ["error", "fallback"]
    version := 1
    createdAt := env.nowIso
    createdBy := "api_error_handler" }

/-- Modelled JS engine message of a `JSON.parse` `SyntaxError` (or of the
`TypeError` from reading a property of `null`): a deterministic function of
the malformed text, never inspected by the route. -/
def jsJsonErrMsg : String := "Unexpected token in JSON"

/-- The truncated raw-response echo used in place of an empty pre-marker
text, missing-fields variant. -/
def echoIncomplete (conv full : String) : String :=
  if conv != "" then conv
  else "AI response received, but AI Role JSON was incomplete. Raw LLM output (first 500 chars): "
    ++ strSubstring full 0 500 ++ "..."

/-- As `echoIncomplete`, malformed-JSON variant. -/
def echoMalformed (conv full : String) : String :=
  if conv != "" then conv
  else "AI response received, but AI Role JSON was malformed. Raw LLM output (first 500 chars): "
    ++ strSubstring full 0 500 ++ "..."

/-- The check `finalAiRoleJson.title.startsWith("Error:")` of the post-split
substitution.  On a non-string title the JS call would throw to the
catch-all 500; that case is outside every theorem below (their candidate
titles are strings, and fallback titles always are), and the model reports
`true` there, skipping the substitution. -/
def titleIsErrorTagged (t : JVal) : Bool :=
  match t with
  | .str s => jsStartsWith s "Error:"
  | _ => true

/-- The post-split substitution of the handler (right after the marker
split): a conversational text that came out empty although the response was
not, for a candidate that is not Error-titled, is replaced by a fixed
substitute sentence; the candidate is untouched. -/
def fixupEmptyConversational (fullLlmResponse : String)
    (out : String × ClientAiRole) : String × ClientAiRole :=
  if out.1 = "" ∧ fullLlmResponse ≠ "" ∧ titleIsErrorTagged out.2.title = false then
    ("Received a response from the AI, but had trouble separating the conversational part.",
     out.2)
  else out

/-- The split block of the handler: marker search (`indexOf`, the end marker
searched strictly after the start marker), pre-marker text and between-marker
text (both trimmed), `JSON.parse` of the latter, the truthiness guard on the
five required fields, and either the valid candidate or the tagged fallback.
Yields the pre-substitution `(conversationalText, finalAiRoleJson)`. -/
def splitLlmResponseCore (env : SplitEnv) (fullLlmResponse message : String) :
    String × ClientAiRole :=
  match strIndexOf fullLlmResponse jsonStartMarker 0 with
  | none =>
    (jsTrim fullLlmResponse,
     mockFallbackAiRole env "JSON markers not found in LLM response." (some message))
  | some jsonStartIndex =>
    match strIndexOf fullLlmResponse jsonEndMarker
        (jsonStartIndex + jsonStartMarker.data.length) with
    | none =>
      (jsTrim fullLlmResponse,
       mockFallbackAiRole env "JSON markers not found in LLM response." (some message))
    | some jsonEndIndex =>
      let conversationalText := jsTrim (strSubstring fullLlmResponse 0 jsonStartIndex)
      let aiRoleJsonString :=
        jsTrim (strSubstring fullLlmResponse
          (jsonStartIndex + jsonStartMarker.data.length) jsonEndIndex)
      match jsonParse aiRoleJsonString with
      | none =>
        (echoMalformed conversationalText fullLlmResponse,
         mockFallbackAiRole env ("Failed to parse JSON: " ++ jsJsonErrMsg) (some message))
      | some parsed =>
        if jsNullish parsed then
          -- `parsedAiRoleBase.title` throws on null; caught by the same catch.
          (echoMalformed conversationalText fullLlmResponse,
           mockFallbackAiRole env ("Failed to parse JSON: " ++ jsJsonErrMsg) (some message))
        else
          let pTitle := jsGetU parsed "title"
          let pDesc := jsGetU parsed "description"
          let pSys := jsGetU parsed "systemPromptText"
          let pCat := jsGetU parsed "category"
          let pTags := jsGetU parsed "tags"
          if jsTruthy pTitle && jsTruthy pDesc && jsTruthy pSys && jsTruthy pCat
              && jsIsArray pTags then
            (conversationalText,
             { id := env.genId
               title := pTitle
               description := pDesc
               systemPromptText := pSys
               category := if jsTruthy pCat then pCat else .str "Custom"
               tags :=
                 match pTags with
                 | .arr xs => xs.map (fun t => jsToLower (jsToString t))
                 | _ => []
               version := 1
               createdAt := env.nowIso
               createdBy := "llm_onboarding_session" })
          else
            (echoIncomplete conversationalText fullLlmResponse,
             mockFallbackAiRole env "Generated JSON missing required fields." (some message))

/-- The splitter as the handler runs it: the split block followed by the
post-split empty-conversational substitution.  Returns the
`(conversationalText, finalAiRoleJson)` pair the response is built from. -/
def splitLlmResponse (env : SplitEnv) (fullLlmResponse message : String) :
    String × ClientAiRole :=
  fixupEmptyConversational fullLlmResponse
    (splitLlmResponseCore env fullLlmResponse message)

/-! ## Input sanitisation and request-shape validation -/

/-- Model of `sanitizeInput(text, maxLength)`: remove every `<` and `>` (the regex
`/[<>]/g`), then truncate with `substring(0, maxLength)`. -/
def sanitizeInputMax (text : String) (maxLength : Nat) : String :=
  ⟨(text.data.filter (fun c => !(c = '<' || c = '>'))).take maxLength⟩

/-- The call `sanitizeInput(text)` with the default `maxLength = 2000`, the form used
at both call sites of the onboarding route. -/
def sanitizeInput (text : String) : String :=
  sanitizeInputMax text 2000

/-- Error message of the onboarding route for a missing or non-string `message`. -/
def msgRequiredErr : String :=
  "Validation Error: Message is required and must be a string."

/-- Oversized `message` error of the onboarding route. -/
def msgTooLongErr : String :=
  "Validation Error: Message exceeds maximum length of 2000 characters."

/-- Non-array `conversationHistory` error of the onboarding route. -/
def histNotArrayErr : String :=
  "Validation Error: conversationHistory must be an array."

/-- Malformed history item error of the onboarding route. -/
def histItemErr : String :=
  "Validation Error: Invalid structure for an item in conversationHistory."

/-- Oversized history part error of the onboarding route. -/
def histItemTooLongErr : String :=
  "Validation Error: A message in conversation history exceeds maximum length of 2000 characters."

/-- Production-mode message of the catch-all 500 of the onboarding route. -/
def serverErrorMsg : String :=
  "An unexpected error occurred. Please try again later."

/-- One iteration of the history validation loop: the structural check
(`typeof turn === "object"`, non-null, role in `user|model`, nonempty
`parts` array, `parts[0]` a non-null object with a string `text`), the
2000-character bound on the part text, then the sanitised push. -/
def validateTurn (turn : JVal) : Except (Nat × String) (String × String) :=
  let turnIsObject :=
    match turn with
    | .obj _ => true
    | .arr _ => true
    | _ => false
  if !turnIsObject then .error (400, histItemErr)
  else
    match jsGetU turn "role" with
    | .str role =>
      if role = "user" ∨ role = "model" then
        match jsGetU turn "parts" with
        | .arr parts =>
          match parts with
          | p0 :: _ =>
            let p0IsObject :=
              match p0 with
              | .obj _ => true
              | .arr _ => true
              | _ => false
            if !p0IsObject then .error (400, histItemErr)
            else
              match jsGetU p0 "text" with
              | .str t =>
                if 2000 < t.data.length then .error (400, histItemTooLongErr)
                else .ok (role, sanitizeInput t)
              | _ => .error (400, histItemErr)
          | [] => .error (400, histItemErr)
        | _ => .error (400, histItemErr)
      else .error (400, histItemErr)
    | _ => .error (400, histItemErr)

/-- The `for (const turn of rawConversationHistory)` loop: first failure
returns, otherwise the sanitised `(role, text)` pairs in order. -/
def validateHistory : List JVal → Except (Nat × String) (List (String × String))
  | [] => .ok []
  | turn :: rest =>
    match validateTurn turn with
    | .error e => .error e
    | .ok rt =>
      match validateHistory rest with
      | .error e => .error e
      | .ok rts => .ok (rt :: rts)

/-- Dispatch for `typeof v === "string"`: the string payload, when `v` is one. -/
def asString (v : JVal) : Option String :=
  match v with
  | .str s => some s
  | _ => none

/-- Dispatch for `Array.isArray(v)`: the element list, when `v` is an array. -/
def asArray (v : JVal) : Option (List JVal) :=
  match v with
  | .arr xs => some xs
  | _ => none

/-- The validation phase of the onboarding `POST` handler, given the parsed
request body: message string/nonblank/length checks, history array and
per-item checks, then the splice to the last 20 turns.  Returns the sanitised
message and history, or the `(status, message)` of the error response. -/
def onboardingValidateCore (rawMessage rawHistory : JVal) :
    Except (Nat × String) (String × List (String × String)) :=
  match asString rawMessage with
  | some m =>
    if jsTrim m = "" then .error (400, msgRequiredErr)
    else if 2000 < m.data.length then .error (400, msgTooLongErr)
    else
      match asArray rawHistory with
      | some turns =>
        (match validateHistory turns with
         | .error e => .error e
         | .ok hist =>
           .ok (sanitizeInput m,
                if 20 < hist.length then hist.drop (hist.length - 20) else hist))
      | none => .error (400, histNotArrayErr)
  | none => .error (400, msgRequiredErr)

/-- Validation phase on the raw body value: destructuring a nullish body
throws (caught by the catch-all 500); otherwise `message` is read from the
body and `conversationHistory` defaults to `[]` only when `undefined`. -/
def onboardingValidate (body : JVal) :
    Except (Nat × String) (String × List (String × String)) :=
  if jsNullish body then .error (500, serverErrorMsg)
  else
    onboardingValidateCore (jsGetU body "message")
      (match jsGetU body "conversationHistory" with
       | .undefVal => .arr []
       | v => v)

/-- The zod `BodySchema.parse` of the recipe-generation route
(`z.object({ prompt: z.string().min(1).max(500) })`) together with the
catch-all of the route: any parse failure is caught and answered with
`500 / "Generation failed"`. -/
def generateValidate (body : JVal) : Except (Nat × String) String :=
  match body with
  | .obj flds =>
    match jsGet flds "prompt" with
    | some (.str p) =>
      if 1 ≤ p.data.length ∧ p.data.length ≤ 500 then .ok p
      else .error (500, "Generation failed")
    | _ => .error (500, "Generation failed")
  | _ => .error (500, "Generation failed")

/-! ## Stricter zod schema and persistence (lines after the split) -/

/-- The `category` enumeration of `AiRoleZodSchema`. -/
def aiRoleCategories : List String :=
  ["Productivity", "Creative", "Education", "Development", "Entertainment",
   "Health & Wellness", "Custom"]

/-- Model of `z.string().min(lo).max(hi)` on a dynamic value. -/
def zodStrOk (v : JVal) (lo hi : Nat) : Bool :=
  match v with
  | .str s => decide (lo ≤ s.data.length) && decide (s.data.length ≤ hi)
  | _ => false

/-- Success of `AiRoleZodSchema.safeParse` on the LLM-derived fields of the
candidate.  `tags` always validates here because the tags of the embedded
candidate are string lists by construction. -/
def aiRoleZodValid (c : ClientAiRole) : Bool :=
  zodStrOk c.title 1 100 &&
  zodStrOk c.description 1 500 &&
  zodStrOk c.systemPromptText 1 10000 &&
  (match c.category with
   | .str s => aiRoleCategories.contains s
   | _ => false)

/-- The mutation applied before the insert attempt: on zod failure the title
is prefixed with the visible warning marker, otherwise the candidate is kept
as-is. -/
def zodAdjust (c : ClientAiRole) : ClientAiRole :=
  if aiRoleZodValid c then c
  else { c with title := .str ("Warning: Invalid LLM Data - " ++ jsToString c.title) }

/-- The check `finalAiRoleJson.category !== "Error"` (a non-string category also counts
as non-Error, as in JS strict inequality). -/
def isErrorCategory (c : ClientAiRole) : Bool :=
  match c.category with
  | .str s => s = "Error"
  | _ => false

/-- Outcome of `AiRole.create`: the store-assigned id and (when set) the
`createdAt` timestamp. -/
structure DbSaved where
  id : String
  createdAt : Option String

/-- The persistence step: skipped entirely for Error-tagged candidates;
otherwise the zod check (warn, do not reject) runs first, then the insert;
on success the store id (and, if present, timestamp) overwrite the temporary
ones, and on failure the error is logged and swallowed, returning the
pre-insert candidate. -/
def persistCandidate (c : ClientAiRole) (db : Except String DbSaved) : ClientAiRole :=
  if isErrorCategory c then c
  else
    let c1 := zodAdjust c
    match db with
    | .ok saved =>
      let c2 := { c1 with id := saved.id }
      (match saved.createdAt with
       | some ts => { c2 with createdAt := ts }
       | none => c2)
    | .error _ => c1

/-- The tail of the handler: after the persist block the response is built
unconditionally with the default status 200, whatever the insert outcome. -/
def onboardingRespond (conversationalText : String) (c : ClientAiRole)
    (db : Except String DbSaved) : Nat × String × ClientAiRole :=
  (200, conversationalText, persistCandidate c db)

/-! ## Lemmas about the recipe parser -/

/-- A line recognised by none of the three header prefixes leaves a
`modeNone` state unchanged. -/
lemma recipeStep_no_header (st : PState) (l : String)
    (h1 : jsStartsWith (jsToLower l) "title:" = false)
    (h2 : jsStartsWith (jsToLower l) "ingredients" = false)
    (h3 : jsStartsWith (jsToLower l) "steps" = false)
    (hm : st.mode = PMode.modeNone) :
    recipeStep st l = st := by
  simp [recipeStep, h1, h2, h3, hm]

/-- Folding the parser loop over header-free lines keeps a `modeNone` state
unchanged. -/
lemma foldl_recipeStep_none (ls : List String) (st : PState)
    (hm : st.mode = PMode.modeNone)
    (h : ∀ l ∈ ls,
      jsStartsWith (jsToLower l) "title:" = false ∧
      jsStartsWith (jsToLower l) "ingredients" = false ∧
      jsStartsWith (jsToLower l) "steps" = false) :
    ls.foldl recipeStep st = st := by
  induction ls generalizing st with
  | nil => rfl
  | cons a as ih =>
    have ha := h a (by simp)
    rw [List.foldl_cons, recipeStep_no_header st a ha.1 ha.2.1 ha.2.2 hm]
    exact ih st hm (fun l hl => h l (by simp [hl]))

/-- C8: the recipe parser is a total function (it can never throw), and on any
input none of whose lines, after trimming, case-insensitively starts with
`title:`, `ingredients` or `steps`, it returns the placeholder title
`"Untitled Wreck"` and two empty arrays. -/
theorem parser_no_headers_gives_defaults (raw : String)
    (h : ∀ l ∈ splitNl raw,
      jsStartsWith (jsToLower (jsTrim l)) "title:" = false ∧
      jsStartsWith (jsToLower (jsTrim l)) "ingredients" = false ∧
      jsStartsWith (jsToLower (jsTrim l)) "steps" = false) :
    parseRecipe raw = { title := "Untitled Wreck", ingredients := [], steps := [] } := by
  have hfold :
      (((splitNl raw).map jsTrim).filter (fun l => l != "")).foldl recipeStep
        { title := "Untitled Wreck", ingredients := [], steps := [],
          mode := PMode.modeNone } =
      { title := "Untitled Wreck", ingredients := [], steps := [],
        mode := PMode.modeNone } := by
    apply foldl_recipeStep_none _ _ rfl
    intro l hl
    rw [List.mem_filter] at hl
    obtain ⟨hl1, _⟩ := hl
    rw [List.mem_map] at hl1
    obtain ⟨l0, hl0, rfl⟩ := hl1
    exact h l0 hl0
  simp only [parseRecipe, hfold]

/-- Witness for C8 at a concrete header-free input. -/
theorem parser_no_headers_gives_defaults_witness :
    parseRecipe "hello\nworld" = { title := "Untitled Wreck", ingredients := [], steps := [] } :=
  parser_no_headers_gives_defaults "hello\nworld" (by decide)

/-- C9: the end-to-end parser example: title extracted and trimmed, bullet and
number prefixes stripped, order preserved. -/
theorem parser_end_to_end_example :
    parseRecipe "Title: Deep-Fried Regret\n\nIngredients:\n- Butter\n- Sugar\n\nSteps:\n1. Mix\n2. Fry" =
      { title := "Deep-Fried Regret", ingredients := ["Butter", "Sugar"], steps := ["Mix", "Fry"] } := by
  decide

/-- C1 (counterexample): the parser does **not** strip Markdown emphasis
characters before prefix matching, so the Markdown-decorated form of an input
parses differently from its plain-header form: the decorated headers are never
recognised, and the whole decorated input collapses to the defaults. -/
theorem markdown_headers_parse_differently :
    parseRecipe "**Title:** X\n**Ingredients:**\n- A\n**Steps:**\n1. B" ≠
      parseRecipe "Title: X\nIngredients:\n- A\nSteps:\n1. B" ∧
    parseRecipe "**Title:** X\n**Ingredients:**\n- A\n**Steps:**\n1. B" =
      { title := "Untitled Wreck", ingredients := [], steps := [] } ∧
    parseRecipe "Title: X\nIngredients:\n- A\nSteps:\n1. B" =
      { title := "X", ingredients := ["A"], steps := ["B"] } :=
  ⟨by decide, by decide, by decide⟩

/-- C1 (amended): Markdown emphasis characters are not stripped; a line whose
lower-cased form still begins with `**` is never recognised as a header — it
neither sets the title nor switches the mode. -/
theorem starred_line_never_header (st : PState) (l : String)
    (h : jsStartsWith (jsToLower l) "**" = true) :
    (recipeStep st l).title = st.title ∧ (recipeStep st l).mode = st.mode := by
  have hshape : ∃ t, (jsToLower l).data = '*' :: '*' :: t := by
    unfold jsStartsWith at h
    cases hd : (jsToLower l).data with
    | nil => rw [hd] at h; simp [List.isPrefixOf] at h
    | cons c cs =>
      rw [hd] at h
      cases hd2 : cs with
      | nil => rw [hd2] at h; simp [List.isPrefixOf] at h
      | cons c2 cs2 =>
        rw [hd2] at h
        simp [List.isPrefixOf] at h
        exact ⟨cs2, by rw [← h.1, ← h.2]⟩
  obtain ⟨t, ht⟩ := hshape
  have h1 : jsStartsWith (jsToLower l) "title:" = false := by
    unfold jsStartsWith
    rw [ht]
    simp [List.isPrefixOf]
  have h2 : jsStartsWith (jsToLower l) "ingredients" = false := by
    unfold jsStartsWith
    rw [ht]
    simp [List.isPrefixOf]
  have h3 : jsStartsWith (jsToLower l) "steps" = false := by
    unfold jsStartsWith
    rw [ht]
    simp [List.isPrefixOf]
  cases hm : st.mode <;> simp [recipeStep, h1, h2, h3, hm]

/-- Witness for the amended C1 at a concrete starred line and state. -/
theorem starred_line_never_header_witness :
    jsStartsWith (jsToLower "**Title:** X") "**" = true ∧
    (recipeStep ⟨"Untitled Wreck", [], [], PMode.modeNone⟩ "**Title:** X").title =
      "Untitled Wreck" ∧
    (recipeStep ⟨"Untitled Wreck", [], [], PMode.modeNone⟩ "**Title:** X").mode =
      PMode.modeNone :=
  ⟨by decide,
   (starred_line_never_header ⟨"Untitled Wreck", [], [], PMode.modeNone⟩
     "**Title:** X" (by decide)).1,
   (starred_line_never_header ⟨"Untitled Wreck", [], [], PMode.modeNone⟩
     "**Title:** X" (by decide)).2⟩

/-! ## Theorems about the splitter -/

/-- Prefix testing is stable under extending the scanned list on the right. -/
lemma isPrefixOf_append_left (p a b : List Char)
    (h : p.isPrefixOf a = true) : p.isPrefixOf (a ++ b) = true := by
  have h2 : p <+: a := by simpa using h
  simpa using h2.trans (a.prefix_append b)

/-- Every fallback candidate title starts with the `Error:` tag. -/
lemma mockFallbackAiRole_title_tagged (env : SplitEnv) (e : String)
    (u : Option String) :
    titleIsErrorTagged (mockFallbackAiRole env e u).title = true := by
  cases u with
  | none =>
    show titleIsErrorTagged (JVal.str "Error: AI Role Generation Failed") = true
    decide
  | some s =>
    show jsStartsWith
      (if s != "" then "Error: AI Role for \"" ++ jsTake s 50 ++ "\""
       else "Error: AI Role Generation Failed") "Error:" = true
    split
    · unfold jsStartsWith
      rw [String.data_append, String.data_append]
      exact isPrefixOf_append_left _ _ _ (isPrefixOf_append_left _ _ _ (by decide))
    · decide

/-- The post-split substitution never fires on an Error-titled candidate. -/
lemma fixupEmptyConversational_skip (f : String) (out : String × ClientAiRole)
    (h : titleIsErrorTagged out.2.title = true) :
    fixupEmptyConversational f out = out := by
  unfold fixupEmptyConversational
  rw [if_neg]
  intro hc
  rw [h] at hc
  exact absurd hc.2.2 (by decide)

/-- The post-split substitution never fires on a non-empty conversational
text. -/
lemma fixupEmptyConversational_of_ne (f : String) (out : String × ClientAiRole)
    (h : out.1 ≠ "") :
    fixupEmptyConversational f out = out := by
  unfold fixupEmptyConversational
  rw [if_neg]
  exact fun hc => h hc.1

/-- The post-split substitution never changes the candidate. -/
lemma fixupEmptyConversational_snd (f : String) (out : String × ClientAiRole) :
    (fixupEmptyConversational f out).2 = out.2 := by
  unfold fixupEmptyConversational
  split <;> rfl

/-- C6: when the start marker is absent, or no end marker occurs at/after the
end of the start marker, the splitter returns the whole input trimmed as the
conversational text together with the fallback candidate whose category is
`"Error"` and whose description records that the JSON markers were not
found. -/
theorem splitter_no_markers_fallback (env : SplitEnv) (resp msg : String)
    (h : strIndexOf resp jsonStartMarker 0 = none ∨
      ∃ i, strIndexOf resp jsonStartMarker 0 = some i ∧
        strIndexOf resp jsonEndMarker (i + jsonStartMarker.data.length) = none) :
    splitLlmResponse env resp msg =
      (jsTrim resp,
       mockFallbackAiRole env "JSON markers not found in LLM response." (some msg)) ∧
    (mockFallbackAiRole env "JSON markers not found in LLM response."
      (some msg)).category = JVal.str "Error" ∧
    (mockFallbackAiRole env "JSON markers not found in LLM response."
      (some msg)).description =
      JVal.str "Failed to generate AI Role. JSON markers not found in LLM response." := by
  have hcore : splitLlmResponseCore env resp msg =
      (jsTrim resp,
       mockFallbackAiRole env "JSON markers not found in LLM response." (some msg)) := by
    rcases h with h1 | ⟨i, h1, h2⟩
    · simp only [splitLlmResponseCore, h1]
    · simp only [splitLlmResponseCore, h1, h2]
  have key : splitLlmResponse env resp msg =
      (jsTrim resp,
       mockFallbackAiRole env "JSON markers not found in LLM response." (some msg)) := by
    unfold splitLlmResponse
    rw [hcore]
    exact fixupEmptyConversational_skip _ _
      (mockFallbackAiRole_title_tagged env _ (some msg))
  exact ⟨key, rfl, rfl⟩

/-- Witness for C6 at a concrete marker-free response. -/
theorem splitter_no_markers_fallback_witness :
    splitLlmResponse ⟨"3", "t3"⟩ "Hello there" "hi" =
      ("Hello there",
       mockFallbackAiRole ⟨"3", "t3"⟩ "JSON markers not found in LLM response."
         (some "hi")) ∧
    (mockFallbackAiRole (SplitEnv.mk "3" "t3") "JSON markers not found in LLM response."
      (some "hi")).category = JVal.str "Error" ∧
    (mockFallbackAiRole (SplitEnv.mk "3" "t3") "JSON markers not found in LLM response."
      (some "hi")).description =
      JVal.str "Failed to generate AI Role. JSON markers not found in LLM response." :=
  splitter_no_markers_fallback ⟨"3", "t3"⟩ "Hello there" "hi" (Or.inl rfl)

/-- C2 (amended): when both markers are found in order and the text strictly
between them parses as a JSON object whose `title` is a present non-empty
string, whose `description`, `systemPromptText` and `category` are present
and truthy — in particular non-empty, not merely present — and whose `tags`
is an array, the splitter builds the candidate from the parsed fields (tags
string-coerced and lower-cased, version 1, `createdBy` the fixed session tag,
id/createdAt from the current environment) and returns as conversational text
the trimmed pre-start-marker text — post-processed by the handler
substitution that replaces it, when it is empty, with a fixed substitute
sentence.  Whenever the trimmed pre-marker text is non-empty it is returned
verbatim. -/
theorem splitter_valid_json_happy_path (env : SplitEnv) (resp msg : String)
    (i j : Nat) (flds : List (String × JVal)) (ts : String) (dv sv cv : JVal)
    (tagVals : List JVal)
    (h1 : strIndexOf resp jsonStartMarker 0 = some i)
    (h2 : strIndexOf resp jsonEndMarker (i + jsonStartMarker.data.length) = some j)
    (h3 : jsonParse (jsTrim (strSubstring resp (i + jsonStartMarker.data.length) j)) =
      some (JVal.obj flds))
    (ht : jsGet flds "title" = some (JVal.str ts)) (hts : ts ≠ "")
    (hd : jsGet flds "description" = some dv) (hdt : jsTruthy dv = true)
    (hs : jsGet flds "systemPromptText" = some sv) (hst : jsTruthy sv = true)
    (hc : jsGet flds "category" = some cv) (hct : jsTruthy cv = true)
    (hg : jsGet flds "tags" = some (JVal.arr tagVals)) :
    splitLlmResponse env resp msg =
      fixupEmptyConversational resp
        (jsTrim (strSubstring resp 0 i),
         ⟨env.genId, JVal.str ts, dv, sv, cv,
          tagVals.map (fun t => jsToLower (jsToString t)), 1, env.nowIso,
          "llm_onboarding_session"⟩) ∧
    (jsTrim (strSubstring resp 0 i) ≠ "" →
      splitLlmResponse env resp msg =
        (jsTrim (strSubstring resp 0 i),
         ⟨env.genId, JVal.str ts, dv, sv, cv,
          tagVals.map (fun t => jsToLower (jsToString t)), 1, env.nowIso,
          "llm_onboarding_session"⟩)) := by
  have htt : jsTruthy (JVal.str ts) = true := by
    obtain ⟨l⟩ := ts
    cases l with
    | nil => exact absurd rfl hts
    | cons c cs => rfl
  have hcore : splitLlmResponseCore env resp msg =
      (jsTrim (strSubstring resp 0 i),
       ⟨env.genId, JVal.str ts, dv, sv, cv,
        tagVals.map (fun t => jsToLower (jsToString t)), 1, env.nowIso,
        "llm_onboarding_session"⟩) := by
    simp only [splitLlmResponseCore, h1, h2, h3, jsNullish, jsGetU, ht, hd, hs, hc,
      hg, Option.getD_some, htt, hdt, hst, hct, jsIsArray, Bool.and_self,
      Bool.true_and, Bool.and_true, Bool.false_eq_true, if_true, if_false]
  have hmain : splitLlmResponse env resp msg =
      fixupEmptyConversational resp
        (jsTrim (strSubstring resp 0 i),
         ⟨env.genId, JVal.str ts, dv, sv, cv,
          tagVals.map (fun t => jsToLower (jsToString t)), 1, env.nowIso,
          "llm_onboarding_session"⟩) := by
    unfold splitLlmResponse
    rw [hcore]
  refine ⟨hmain, fun hne => ?_⟩
  rw [hmain]
  exact fixupEmptyConversational_of_ne _ _ hne

/-- Witness for the amended C2: the end-to-end splitter example from the
spec, whose pre-marker preamble is non-empty. -/
theorem splitter_valid_json_happy_path_witness :
    splitLlmResponse ⟨"id0", "t0"⟩
      "Sounds fun!\n---JSON_START---\n\x7b\"title\":\"Joke Bot\",\"description\":\"d\",\"systemPromptText\":\"p\",\"category\":\"Creative\",\"tags\":[\"Fun\"]\x7d\n---JSON_END---"
      "msg0" =
      ("Sounds fun!",
       ⟨"id0", JVal.str "Joke Bot", JVal.str "d", JVal.str "p", JVal.str "Creative",
        ["fun"], 1, "t0", "llm_onboarding_session"⟩) :=
  (splitter_valid_json_happy_path ⟨"id0", "t0"⟩
    "Sounds fun!\n---JSON_START---\n\x7b\"title\":\"Joke Bot\",\"description\":\"d\",\"systemPromptText\":\"p\",\"category\":\"Creative\",\"tags\":[\"Fun\"]\x7d\n---JSON_END---"
    "msg0" 12 128
    [("title", JVal.str "Joke Bot"), ("description", JVal.str "d"),
     ("systemPromptText", JVal.str "p"), ("category", JVal.str "Creative"),
     ("tags", JVal.arr [JVal.str "Fun"])]
    "Joke Bot" (JVal.str "d") (JVal.str "p") (JVal.str "Creative") [JVal.str "Fun"]
    rfl rfl rfl rfl (by decide) rfl rfl rfl rfl rfl rfl rfl).2 (by decide)

/-- C2 (counterexample): all five fields present and `tags` an array, but
`title` is the empty string — present, yet falsy — so the splitter does *not*
return a candidate with the parsed fields: it produces the
missing-required-fields fallback instead. -/
theorem splitter_present_empty_title_falls_back :
    (splitLlmResponse ⟨"1", "t1"⟩
      "Hi\n---JSON_START---\n\x7b\"title\":\"\",\"description\":\"d\",\"systemPromptText\":\"p\",\"category\":\"Creative\",\"tags\":[]\x7d\n---JSON_END---"
      "hello").2.title ≠ JVal.str "" ∧
    (splitLlmResponse ⟨"1", "t1"⟩
      "Hi\n---JSON_START---\n\x7b\"title\":\"\",\"description\":\"d\",\"systemPromptText\":\"p\",\"category\":\"Creative\",\"tags\":[]\x7d\n---JSON_END---"
      "hello").2.category = JVal.str "Error" := by
  have e : (splitLlmResponse ⟨"1", "t1"⟩
      "Hi\n---JSON_START---\n\x7b\"title\":\"\",\"description\":\"d\",\"systemPromptText\":\"p\",\"category\":\"Creative\",\"tags\":[]\x7d\n---JSON_END---"
      "hello").2.title = JVal.str "Error: AI Role for \"hello\"" := rfl
  refine ⟨?_, rfl⟩
  intro h
  rw [e] at h
  injection h with h2
  exact absurd h2 (by decide)

/-- C5 (amended): a present-but-empty `category` does not default to
`"Custom"`: the truthiness guard already rejects it, so the splitter produces
the missing-required-fields fallback candidate (category `"Error"`); the
`|| "Custom"` default in the candidate constructor is unreachable. -/
theorem splitter_empty_category_falls_back (env : SplitEnv) (resp msg : String)
    (i j : Nat) (flds : List (String × JVal)) (tv dv sv : JVal)
    (h1 : strIndexOf resp jsonStartMarker 0 = some i)
    (h2 : strIndexOf resp jsonEndMarker (i + jsonStartMarker.data.length) = some j)
    (h3 : jsonParse (jsTrim (strSubstring resp (i + jsonStartMarker.data.length) j)) =
      some (JVal.obj flds))
    (ht : jsGet flds "title" = some tv) (htt : jsTruthy tv = true)
    (hd : jsGet flds "description" = some dv) (hdt : jsTruthy dv = true)
    (hs : jsGet flds "systemPromptText" = some sv) (hst : jsTruthy sv = true)
    (hc : jsGet flds "category" = some (JVal.str "")) :
    (splitLlmResponse env resp msg).2 =
      mockFallbackAiRole env "Generated JSON missing required fields." (some msg) := by
  have hfalse : jsTruthy (JVal.str "") = false := rfl
  simp only [splitLlmResponse, fixupEmptyConversational_snd, splitLlmResponseCore,
    h1, h2, h3, jsNullish, jsGetU, ht, hd, hs, hc, Option.getD_some, htt, hdt, hst,
    hfalse, Bool.and_false, Bool.false_and, Bool.and_true, Bool.true_and,
    Bool.false_eq_true, if_false]

/-- Witness for the amended C5 at a concrete empty-category response. -/
theorem splitter_empty_category_falls_back_witness :
    (splitLlmResponse ⟨"5", "t5"⟩
      "Ok\n---JSON_START---\n\x7b\"title\":\"T\",\"description\":\"d\",\"systemPromptText\":\"p\",\"category\":\"\",\"tags\":[]\x7d\n---JSON_END---"
      "hello").2 =
      mockFallbackAiRole ⟨"5", "t5"⟩ "Generated JSON missing required fields."
        (some "hello") :=
  splitter_empty_category_falls_back ⟨"5", "t5"⟩
    "Ok\n---JSON_START---\n\x7b\"title\":\"T\",\"description\":\"d\",\"systemPromptText\":\"p\",\"category\":\"\",\"tags\":[]\x7d\n---JSON_END---"
    "hello" 3 99
    [("title", JVal.str "T"), ("description", JVal.str "d"),
     ("systemPromptText", JVal.str "p"), ("category", JVal.str ""),
     ("tags", JVal.arr [])]
    (JVal.str "T") (JVal.str "d") (JVal.str "p")
    rfl rfl rfl rfl rfl rfl rfl rfl rfl rfl

/-- C5 (counterexample): with `category` present but equal to `""` (and the
other required fields present and non-empty), the category of the candidate is
`"Error"` — the fallback — not `"Custom"`. -/
theorem splitter_empty_category_not_custom :
    (splitLlmResponse ⟨"2", "t2"⟩
      "Ok\n---JSON_START---\n\x7b\"title\":\"T\",\"description\":\"d\",\"systemPromptText\":\"p\",\"category\":\"\",\"tags\":[]\x7d\n---JSON_END---"
      "hullo").2.category = JVal.str "Error" ∧
    (splitLlmResponse ⟨"2", "t2"⟩
      "Ok\n---JSON_START---\n\x7b\"title\":\"T\",\"description\":\"d\",\"systemPromptText\":\"p\",\"category\":\"\",\"tags\":[]\x7d\n---JSON_END---"
      "hullo").2.category ≠ JVal.str "Custom" := by
  refine ⟨rfl, ?_⟩
  intro h
  have e : (splitLlmResponse ⟨"2", "t2"⟩
      "Ok\n---JSON_START---\n\x7b\"title\":\"T\",\"description\":\"d\",\"systemPromptText\":\"p\",\"category\":\"\",\"tags\":[]\x7d\n---JSON_END---"
      "hullo").2.category = JVal.str "Error" := rfl
  rw [e] at h
  injection h with h2
  exact absurd h2 (by decide)

/-- Erase the two environment-derived fields (temporary id, createdAt) of
a candidate, leaving the fields that are functions of the input text. -/
def scrubDynamic (c : ClientAiRole) : ClientAiRole :=
  { c with id := "", createdAt := "" }

/-- C4 (amended): the recipe parser is a pure function of its input string
(its embedding takes nothing else), and the splitter is deterministic in all
outputs *except* the candidate fields `id` and `createdAt`: the conversational
text and every scrubbed candidate field depend only on the input text, while
`id`/`createdAt` come from the clock/RNG environment of the invocation. -/
theorem splitter_deterministic_up_to_clock (env1 env2 : SplitEnv)
    (resp msg raw : String) :
    parseRecipe raw = parseRecipe raw ∧
    (splitLlmResponse env1 resp msg).1 = (splitLlmResponse env2 resp msg).1 ∧
    scrubDynamic (splitLlmResponse env1 resp msg).2 =
      scrubDynamic (splitLlmResponse env2 resp msg).2 := by
  have hAB :
      (splitLlmResponseCore env1 resp msg).1 = (splitLlmResponseCore env2 resp msg).1 ∧
      scrubDynamic (splitLlmResponseCore env1 resp msg).2 =
        scrubDynamic (splitLlmResponseCore env2 resp msg).2 := by
    constructor <;>
    · unfold splitLlmResponseCore
      dsimp only
      repeat' split
      all_goals rfl
  have hT : (splitLlmResponseCore env1 resp msg).2.title =
      (splitLlmResponseCore env2 resp msg).2.title := by
    have h0 := congrArg ClientAiRole.title hAB.2
    simpa [scrubDynamic] using h0
  refine ⟨rfl, ?_, ?_⟩
  · show (fixupEmptyConversational resp (splitLlmResponseCore env1 resp msg)).1 =
      (fixupEmptyConversational resp (splitLlmResponseCore env2 resp msg)).1
    unfold fixupEmptyConversational
    by_cases hcnd : (splitLlmResponseCore env1 resp msg).1 = "" ∧ resp ≠ "" ∧
        titleIsErrorTagged (splitLlmResponseCore env1 resp msg).2.title = false
    · rw [if_pos hcnd, if_pos (by rw [← hAB.1, ← hT]; exact hcnd)]
    · rw [if_neg hcnd, if_neg (by rw [← hAB.1, ← hT]; exact hcnd)]
      exact hAB.1
  · show scrubDynamic (fixupEmptyConversational resp (splitLlmResponseCore env1 resp msg)).2 =
      scrubDynamic (fixupEmptyConversational resp (splitLlmResponseCore env2 resp msg)).2
    rw [fixupEmptyConversational_snd, fixupEmptyConversational_snd]
    exact hAB.2

/-- C4 (counterexample): two invocations of the splitter on the *same* text
that read different clock/RNG values produce different structured output —
the temporary id (and createdAt) differ, so the output is not byte-identical
across runs. -/
theorem splitter_output_depends_on_clock :
    splitLlmResponse ⟨"100.5", "2025-06-08T00:00:00.000Z"⟩ "Hello" "hi" ≠
      splitLlmResponse ⟨"101.7", "2025-06-08T00:00:01.000Z"⟩ "Hello" "hi" := by
  intro h
  have e1 : (splitLlmResponse ⟨"100.5", "2025-06-08T00:00:00.000Z"⟩ "Hello" "hi").2.id =
      "100.5" := rfl
  have e2 : (splitLlmResponse ⟨"101.7", "2025-06-08T00:00:01.000Z"⟩ "Hello" "hi").2.id =
      "101.7" := rfl
  rw [h, e2] at e1
  exact absurd e1 (by decide)

/-! ## Theorems about request-shape validation -/

/-- Every error produced by one history-item check is a 400 with one of the
two history-specific messages. -/
lemma validateTurn_error (turn : JVal) (s : Nat) (m : String)
    (h : validateTurn turn = .error (s, m)) :
    s = 400 ∧ (m = histItemErr ∨ m = histItemTooLongErr) := by
  unfold validateTurn at h
  repeat' split at h
  all_goals simp_all

/-- Every error produced by the history loop is a 400 with one of the two
history-specific messages. -/
lemma validateHistory_error (ts : List JVal) (s : Nat) (m : String)
    (h : validateHistory ts = .error (s, m)) :
    s = 400 ∧ (m = histItemErr ∨ m = histItemTooLongErr) := by
  induction ts with
  | nil => simp [validateHistory] at h
  | cons t rest ih =>
    cases hv : validateTurn t with
    | error e =>
      have he : e = (s, m) := by simpa [validateHistory, hv] using h
      exact validateTurn_error t s m (he ▸ hv)
    | ok rt =>
      cases hr : validateHistory rest with
      | error e =>
        have he : e = (s, m) := by simpa [validateHistory, hv, hr] using h
        exact ih (he ▸ hr)
      | ok rts => simp [validateHistory, hv, hr] at h

/-- Every error of the onboarding validation phase is a 400 carrying one of
the five field-specific messages. -/
lemma onboardingValidateCore_error (rm rh : JVal) (s : Nat) (m : String)
    (h : onboardingValidateCore rm rh = .error (s, m)) :
    s = 400 ∧ (m = msgRequiredErr ∨ m = msgTooLongErr ∨ m = histNotArrayErr ∨
      m = histItemErr ∨ m = histItemTooLongErr) := by
  cases hs : asString rm with
  | none =>
    have he : (400, msgRequiredErr) = ((s, m) : Nat × String) := by
      simpa [onboardingValidateCore, hs] using h
    obtain ⟨rfl, rfl⟩ := Prod.mk.injEq .. ▸ he
    exact ⟨rfl, Or.inl rfl⟩
  | some m0 =>
    by_cases h1 : jsTrim m0 = ""
    · have he : (400, msgRequiredErr) = ((s, m) : Nat × String) := by
        simpa [onboardingValidateCore, hs, h1] using h
      obtain ⟨rfl, rfl⟩ := Prod.mk.injEq .. ▸ he
      exact ⟨rfl, Or.inl rfl⟩
    · by_cases h2 : 2000 < m0.length
      · have he : (400, msgTooLongErr) = ((s, m) : Nat × String) := by
          simpa [onboardingValidateCore, hs, h1, h2] using h
        obtain ⟨rfl, rfl⟩ := Prod.mk.injEq .. ▸ he
        exact ⟨rfl, Or.inr (Or.inl rfl)⟩
      · cases ha : asArray rh with
        | none =>
          have he : (400, histNotArrayErr) = ((s, m) : Nat × String) := by
            simpa [onboardingValidateCore, hs, h1, h2, ha] using h
          obtain ⟨rfl, rfl⟩ := Prod.mk.injEq .. ▸ he
          exact ⟨rfl, Or.inr (Or.inr (Or.inl rfl))⟩
        | some turns =>
          cases hv : validateHistory turns with
          | error e =>
            have he : e = (s, m) := by
              simpa [onboardingValidateCore, hs, h1, h2, ha, hv] using h
            have hk := validateHistory_error turns s m (he ▸ hv)
            exact ⟨hk.1, Or.inr (Or.inr (Or.inr hk.2))⟩
          | ok hist =>
            simp [onboardingValidateCore, hs, h1, h2, ha, hv] at h

/-- C3 (amended): on the onboarding-chat endpoint every request-shape
validation failure (for a non-nullish JSON body) is answered with HTTP 400
and one of the five field-specific messages; on the recipe-generation
endpoint, however, every body rejected by the zod schema — including a prompt
over 500 characters — is answered by the catch-all with HTTP 500 and the
generic `"Generation failed"`, not 400. -/
theorem validation_error_statuses :
    (∀ body s m, jsNullish body = false →
      onboardingValidate body = .error (s, m) →
      s = 400 ∧ (m = msgRequiredErr ∨ m = msgTooLongErr ∨ m = histNotArrayErr ∨
        m = histItemErr ∨ m = histItemTooLongErr)) ∧
    (∀ body s m, generateValidate body = .error (s, m) →
      s = 500 ∧ m = "Generation failed") := by
  constructor
  · intro body s m hb h
    unfold onboardingValidate at h
    rw [hb] at h
    simp only [Bool.false_eq_true, if_false] at h
    exact onboardingValidateCore_error _ _ _ _ h
  · intro body s m h
    unfold generateValidate at h
    repeat' split at h
    all_goals simp_all

/-- C3 (counterexample): a 501-character prompt fails the recipe-generation
shape validation of the endpoint, and the endpoint answers 500 `"Generation
failed"` — not a 400 with a field-specific message. -/
theorem generate_oversized_prompt_gives_500 :
    generateValidate (JVal.obj [("prompt", JVal.str ⟨List.replicate 501 'a'⟩)]) =
      .error (500, "Generation failed") := by
  rfl

/-- Witness for the amended C3: a non-string `message` on the onboarding
endpoint (400, field-specific) and a missing `prompt` on the generation
endpoint (500, generic). -/
theorem validation_error_statuses_witness :
    jsNullish (JVal.obj [("message", JVal.bool true)]) = false ∧
    onboardingValidate (JVal.obj [("message", JVal.bool true)]) =
      .error (400, msgRequiredErr) ∧
    generateValidate (JVal.obj []) = .error (500, "Generation failed") ∧
    (400 = 400 ∧ (msgRequiredErr = msgRequiredErr ∨ msgRequiredErr = msgTooLongErr ∨
      msgRequiredErr = histNotArrayErr ∨ msgRequiredErr = histItemErr ∨
      msgRequiredErr = histItemTooLongErr)) ∧
    (500 = 500 ∧ ("Generation failed" : String) = "Generation failed") :=
  ⟨rfl, rfl, rfl,
   validation_error_statuses.1 (JVal.obj [("message", JVal.bool true)]) 400
     msgRequiredErr rfl rfl,
   validation_error_statuses.2 (JVal.obj []) 500 "Generation failed" rfl⟩

/-! ## Theorems about persistence and sanitisation -/

/-- C7: when a non-Error candidate was constructed and the document-store
insert fails, the endpoint still responds 200 with the candidate exactly as
it was just before the insert attempt (the zod warn-only adjustment): its
temporary id and createdAt are retained, the db failure changing neither the
status nor any candidate field. -/
theorem persist_failure_keeps_response (t : String) (c : ClientAiRole) (e : String)
    (h : isErrorCategory c = false) :
    onboardingRespond t c (.error e) = (200, t, zodAdjust c) ∧
    (zodAdjust c).id = c.id ∧ (zodAdjust c).createdAt = c.createdAt := by
  refine ⟨?_, ?_, ?_⟩
  · simp only [onboardingRespond, persistCandidate, h, Bool.false_eq_true, if_false]
  · unfold zodAdjust
    split <;> rfl
  · unfold zodAdjust
    split <;> rfl

/-- Witness for C7 at a concrete valid candidate and a failing insert. -/
theorem persist_failure_keeps_response_witness :
    isErrorCategory ⟨"tmp1", JVal.str "T", JVal.str "d", JVal.str "p",
      JVal.str "Creative", ["x"], 1, "t7", "llm_onboarding_session"⟩ = false ∧
    onboardingRespond "hi" ⟨"tmp1", JVal.str "T", JVal.str "d", JVal.str "p",
        JVal.str "Creative", ["x"], 1, "t7", "llm_onboarding_session"⟩
      (.error "db down") =
      (200, "hi", ⟨"tmp1", JVal.str "T", JVal.str "d", JVal.str "p",
        JVal.str "Creative", ["x"], 1, "t7", "llm_onboarding_session"⟩) ∧
    (zodAdjust ⟨"tmp1", JVal.str "T", JVal.str "d", JVal.str "p",
      JVal.str "Creative", ["x"], 1, "t7", "llm_onboarding_session"⟩).id = "tmp1" ∧
    (zodAdjust ⟨"tmp1", JVal.str "T", JVal.str "d", JVal.str "p",
      JVal.str "Creative", ["x"], 1, "t7", "llm_onboarding_session"⟩).createdAt = "t7" :=
  ⟨rfl,
   (persist_failure_keeps_response "hi" ⟨"tmp1", JVal.str "T", JVal.str "d",
     JVal.str "p", JVal.str "Creative", ["x"], 1, "t7", "llm_onboarding_session"⟩
     "db down" rfl).1,
   (persist_failure_keeps_response "hi" ⟨"tmp1", JVal.str "T", JVal.str "d",
     JVal.str "p", JVal.str "Creative", ["x"], 1, "t7", "llm_onboarding_session"⟩
     "db down" rfl).2.1,
   (persist_failure_keeps_response "hi" ⟨"tmp1", JVal.str "T", JVal.str "d",
     JVal.str "p", JVal.str "Creative", ["x"], 1, "t7", "llm_onboarding_session"⟩
     "db down" rfl).2.2⟩

/-- The sanitizer output is at most 2000 characters and free of `<`/`>`. -/
lemma sanitizeInput_props (s : String) :
    (sanitizeInput s).data.length ≤ 2000 ∧ '<' ∉ (sanitizeInput s).data ∧
      '>' ∉ (sanitizeInput s).data := by
  unfold sanitizeInput sanitizeInputMax
  refine ⟨?_, ?_, ?_⟩
  · exact List.length_take_le 2000 _
  · intro hm
    have hm2 := List.mem_of_mem_take hm
    have hp := List.of_mem_filter hm2
    simp at hp
  · intro hm
    have hm2 := List.mem_of_mem_take hm
    have hp := List.of_mem_filter hm2
    simp at hp

/-- The text a turn check accepts is an output of the sanitiser. -/
lemma validateTurn_ok (turn : JVal) (r t : String)
    (h : validateTurn turn = .ok (r, t)) : ∃ s0, t = sanitizeInput s0 := by
  unfold validateTurn at h
  repeat' split at h
  all_goals simp_all
  all_goals exact ⟨_, h.2.symm⟩

/-- Every text the history loop accepts is an output of the sanitiser. -/
lemma validateHistory_ok (ts : List JVal) (hist : List (String × String))
    (h : validateHistory ts = .ok hist) :
    ∀ p ∈ hist, ∃ s0, p.2 = sanitizeInput s0 := by
  induction ts generalizing hist with
  | nil =>
    have hh : hist = [] := by simpa [validateHistory] using h.symm
    subst hh
    simp
  | cons tn rest ih =>
    cases hv : validateTurn tn with
    | error e => simp [validateHistory, hv] at h
    | ok rt =>
      cases hr : validateHistory rest with
      | error e => simp [validateHistory, hv, hr] at h
      | ok rts =>
        have hh : hist = rt :: rts := by
          simpa [validateHistory, hv, hr] using h.symm
        subst hh
        intro p hp
        rcases List.mem_cons.mp hp with rfl | hp2
        · exact validateTurn_ok tn p.1 p.2 hv
        · exact ih rts hr p hp2

/-- C10: for every onboarding request that passes shape validation, the
message and every history part text incorporated into the model prompt have
had all `<`/`>` characters removed and are at most 2000 characters long. -/
theorem sanitized_prompt_inputs (body : JVal) (m : String)
    (hist : List (String × String))
    (h : onboardingValidate body = .ok (m, hist)) :
    (m.data.length ≤ 2000 ∧ '<' ∉ m.data ∧ '>' ∉ m.data) ∧
    (∀ p ∈ hist, p.2.data.length ≤ 2000 ∧ '<' ∉ p.2.data ∧ '>' ∉ p.2.data) := by
  unfold onboardingValidate at h
  by_cases hb : jsNullish body = true
  · rw [hb] at h
    simp at h
  · rw [Bool.not_eq_true] at hb
    rw [hb] at h
    simp only [Bool.false_eq_true, if_false] at h
    cases hs : asString (jsGetU body "message") with
    | none => simp [onboardingValidateCore, hs] at h
    | some m0 =>
      by_cases h1 : jsTrim m0 = ""
      · simp [onboardingValidateCore, hs, h1] at h
      · by_cases h2 : 2000 < m0.length
        · simp [onboardingValidateCore, hs, h1, h2] at h
        · cases ha : asArray
              (match jsGetU body "conversationHistory" with
               | JVal.undefVal => JVal.arr []
               | v => v) with
          | none => simp [onboardingValidateCore, hs, h1, h2, ha] at h
          | some turns =>
            cases hv : validateHistory turns with
            | error e => simp [onboardingValidateCore, hs, h1, h2, ha, hv] at h
            | ok hist0 =>
              have h3 := h
              simp [onboardingValidateCore, hs, h1, h2, ha, hv] at h3
              obtain ⟨hm', hh'⟩ := h3
              subst hm'
              subst hh'
              constructor
              · exact sanitizeInput_props m0
              · intro p hp
                have hp0 : p ∈ hist0 := by
                  by_cases hl : 20 < hist0.length
                  · rw [if_pos hl] at hp
                    exact List.drop_subset _ _ hp
                  · rwa [if_neg hl] at hp
                obtain ⟨s0, hs0⟩ := validateHistory_ok turns hist0 hv p hp0
                rw [hs0]
                exact sanitizeInput_props s0

/-- Witness for C10 at a concrete request whose message and history part
contain angle brackets. -/
theorem sanitized_prompt_inputs_witness :
    onboardingValidate (JVal.obj [("message", JVal.str "hi <b>"),
      ("conversationHistory", JVal.arr [JVal.obj [("role", JVal.str "user"),
        ("parts", JVal.arr [JVal.obj [("text", JVal.str "a<b>c")]])]])]) =
      .ok ("hi b", [("user", "abc")]) ∧
    (("hi b" : String).data.length ≤ 2000 ∧ '<' ∉ ("hi b" : String).data ∧
      '>' ∉ ("hi b" : String).data) ∧
    (∀ p ∈ ([("user", "abc")] : List (String × String)),
      p.2.data.length ≤ 2000 ∧ '<' ∉ p.2.data ∧ '>' ∉ p.2.data) :=
  ⟨rfl,
   (sanitized_prompt_inputs (JVal.obj [("message", JVal.str "hi <b>"),
      ("conversationHistory", JVal.arr [JVal.obj [("role", JVal.str "user"),
        ("parts", JVal.arr [JVal.obj [("text", JVal.str "a<b>c")]])]])])
      "hi b" [("user", "abc")] rfl).1,
   (sanitized_prompt_inputs (JVal.obj [("message", JVal.str "hi <b>"),
      ("conversationHistory", JVal.arr [JVal.obj [("role", JVal.str "user"),
        ("parts", JVal.arr [JVal.obj [("text", JVal.str "a<b>c")]])]])])
      "hi b" [("user", "abc")] rfl).2⟩
